import Mathlib

set_option maxRecDepth 40000

/-!
# Verification of the analytix event tracker (Go) against its specification

Shallow embedding of the core of the `tracker` Go package:
the query builder (`GenQuery`, `GetStats` binding order), the date
encoder (`TimeToInt`), and the ingestion batcher (`Add`, `Run`,
`flushQueue`, `WaitFlush`).  Go machine integers are modelled as `Nat`
(all values involved stay far below 2^32 except where an explicit
range check appears in the source, which is modelled explicitly).
-/

namespace Tracker

/-! ## Data model (src/types.go, src/db.go)

Go declares `type QueryType int` with eight `iota` constants; any `int`
is a possible `What` value because `MetricData` is decoded from JSON.
We therefore model `QueryType` as `Int` with the eight named constants,
exactly as the source does. -/

abbrev QueryType := Int

def QueryPageViews : QueryType := 0
def QueryPageViewList : QueryType := 1
def QueryUniqueVisitors : QueryType := 2
def QueryReferrerHost : QueryType := 3
def QueryReferrer : QueryType := 4
def QueryBrowsers : QueryType := 5
def QueryOSes : QueryType := 6
def QueryCountry : QueryType := 7

/-- `MetricData` from src/types.go: `Start`/`End` are `uint32` date-ints,
modelled as `Nat`. -/
structure MetricData where
  What : QueryType
  SiteID : String
  Start : Nat
  End : Nat
  Extra : String
deriving Repr, DecidableEq

/-- `Metric` from src/types.go: one result row
(`OccuredAt uint32`, `Value string`, `Count uint64`). -/
structure Metric where
  OccuredAt : Nat
  Value : String
  Count : Nat
deriving Repr, DecidableEq

/-! ## GenQuery (src/db.go lines 345-397)

The Go function initialises `field := ""`, `daily := true`,
`where := "AND $4 = $4"`, then switches on `data.What` (a switch with no
default clause, so an unrecognized kind keeps the initial values), and
finally renders one of two `fmt.Sprintf` templates.  `genSwitch` is that
switch; the template strings below reproduce the Go raw-string literals
byte for byte (each template line is prefixed by two tab characters and
the templates begin and end with the newline/tab of the raw literal). -/

/-- The `switch data.What` of `GenQuery`: returns (field, daily, where).
An unmatched value falls through to the initial values
`("", true, "AND $4 = $4")`, exactly as in the Go source. -/
def genSwitch (what : QueryType) : String × Bool × String :=
  if what = QueryPageViews then ("event", true, "AND $4 = $4")
  else if what = QueryPageViewList then ("event", false, "AND $4 = $4")
  else if what = QueryUniqueVisitors then ("user_id", true, "AND $4 = $4")
  else if what = QueryReferrer then ("referrer", false, "AND referrer_domain = $3 ")
  else if what = QueryReferrerHost then ("referrer_domain", false, "AND $4 = $4")
  else if what = QueryBrowsers then ("browser_name", false, "AND $4 = $4")
  else if what = QueryOSes then ("os_name", false, "AND $4 = $4")
  else if what = QueryCountry then ("country", false, "AND $4 = $4")
  else ("", true, "AND $4 = $4")

/-- The daily-mode `fmt.Sprintf` template of `GenQuery` (both `%s` slots
receive `field`). -/
def dailyTemplate (field : String) : String :=
  "\n\t\tSELECT occured_at, " ++ field ++ ", COUNT(*)\n\t\tFROM events\n\t\tWHERE site_id = $1\n\t\tAND category = \x27Page views\x27\n\t\tGROUP BY occured_at, " ++ field ++ "\n\t\tHAVING occured_at BETWEEN $2 AND $3\n\t\tORDER BY 3 DESC;\n\t"

/-- The totals-mode `fmt.Sprintf` template of `GenQuery`
(slots: `field`, `where`, `field`). -/
def totalsTemplate (field whereClause : String) : String :=
  "\n\t\tSELECT toUInt32(0), " ++ field ++ ", COUNT(*)\n\t\tFROM events\n\t\tWHERE site_id = $1\n\t\tAND occured_at BETWEEN $2 AND $3\n\t\tAND category = \x27Page views\x27\n\t\t" ++ whereClause ++ " \n\t\tGROUP BY " ++ field ++ "\n\t\tORDER BY 3 DESC;\n\t"

/-- `GenQuery` from src/db.go: the query text, a function of the request. -/
def GenQuery (data : MetricData) : String :=
  let parts := genSwitch data.What
  if parts.2.1 then dailyTemplate parts.1
  else totalsTemplate parts.1 parts.2.2

/-! ## GetStats parameter binding (src/db.go lines 301-314)

`GetStats` calls `e.DB.Query(ctx, qry, data.SiteID, data.Start,
data.End, data.Extra)`: the query text from `GenQuery` plus exactly four
positional arguments in that order, so `$1` is bound to `SiteID`, `$2`
to `Start`, `$3` to `End` and `$4` to `Extra`. -/

/-- A positional query parameter value: string or unsigned integer. -/
inductive SqlParam where
  | s (v : String)
  | n (v : Nat)
deriving Repr, DecidableEq

/-- The ordered positional parameter list that `GetStats` binds
(src/db.go lines 307-314). -/
def getStatsParams (data : MetricData) : List SqlParam :=
  [SqlParam.s data.SiteID, SqlParam.n data.Start, SqlParam.n data.End, SqlParam.s data.Extra]

/-- The (query text, bound parameters) pair that `GetStats` hands to the
storage gateway; no other validation happens before execution. -/
def GetStatsCall (data : MetricData) : String × List SqlParam :=
  (GenQuery data, getStatsParams data)

/-- `isPrefixL pat cs`: `pat` is a prefix of `cs` (structural, so the
kernel can evaluate it on literals). -/
def isPrefixL : List Char → List Char → Bool
  | [], _ => true
  | _ :: _, [] => false
  | p :: ps, c :: cs => p == c && isPrefixL ps cs

/-- Number of positions of `cs` at which `pat` starts. -/
def countSub (pat : List Char) : List Char → Nat
  | [] => 0
  | c :: rest => (if isPrefixL pat (c :: rest) then 1 else 0) + countSub pat rest

/-- Number of positions of `s` at which the pattern `pat` starts
(0 means `pat` does not occur in `s`). -/
def occurrences (s pat : String) : Nat :=
  countSub pat.data s.data

/-- The characters of `cs` strictly before the first occurrence of
`pat` (all of `cs` when `pat` does not occur). -/
def takeUntilSub (pat : List Char) : List Char → List Char
  | [] => []
  | c :: rest => if isPrefixL pat (c :: rest) then [] else c :: takeUntilSub pat rest

/-- The part of a query before its `GROUP BY` clause (the SELECT/WHERE
section). -/
def beforeGroupBy (s : String) : String :=
  ⟨takeUntilSub "GROUP BY".data s.data⟩

/-! ## Semantics of the generated queries

The storage gateway (ClickHouse) is an external collaborator; to speak
about query *results* we interpret the two fixed templates over an
explicit table.  A table row carries exactly the `events` columns that
the templates mention (schema in `EnsureTable`, src/db.go lines
104-125). -/

/-- One row of the `events` table (the columns the queries touch). -/
structure Row where
  site_id : String
  occured_at : Nat
  category : String
  event : String
  user_id : String
  referrer : String
  referrer_domain : String
  browser_name : String
  os_name : String
  country : String
deriving Repr, DecidableEq

/-- Column lookup by name: the grouping columns that `genSwitch` can
produce.  Any other name (in particular the empty field of an
unrecognized kind) is not a column of `events` and makes the query
malformed, modelled as `none`. -/
def getCol : String → Option (Row → String)
  | "event" => some (fun r => r.event)
  | "user_id" => some (fun r => r.user_id)
  | "referrer" => some (fun r => r.referrer)
  | "referrer_domain" => some (fun r => r.referrer_domain)
  | "browser_name" => some (fun r => r.browser_name)
  | "os_name" => some (fun r => r.os_name)
  | "country" => some (fun r => r.country)
  | _ => none

/-- First-occurrence deduplication (group keys in scan order). -/
def dedup {α : Type} [BEq α] : List α → List α
  | [] => []
  | a :: as => a :: (dedup (as.filter (fun b => b != a)))
termination_by l => l.length
decreasing_by
  exact Nat.lt_succ_of_le (List.length_filter_le _ _)

/-- Insert a metric into a list sorted by `Count` descending. -/
def insertByCountDesc (m : Metric) : List Metric → List Metric
  | [] => [m]
  | x :: xs =>
      if m.Count > x.Count then m :: x :: xs
      else x :: insertByCountDesc m xs

/-- `ORDER BY 3 DESC`: sort result rows by count, largest first. -/
def orderByCountDesc (ms : List Metric) : List Metric :=
  ms.foldr insertByCountDesc []

/-- Evaluate the daily-mode template: keep rows of the tenant in the
page-view category, group by `(occured_at, column)`, keep groups whose
date lies in `[p2, p3]` (the `HAVING` clause — a post-aggregation filter
on the grouped date), order by count descending.  `none` when the
grouping column is not a column of `events`. -/
def dailyRun (field p1 : String) (p2 p3 : Nat) (tbl : List Row) : Option (List Metric) :=
  match getCol field with
  | none => none
  | some col =>
      let rows := tbl.filter (fun r => r.site_id == p1 && r.category == "Page views")
      let keys := dedup (rows.map (fun r => (r.occured_at, col r)))
      let groups := keys.map (fun k =>
        (⟨k.1, k.2, (rows.filter (fun r => r.occured_at == k.1 && col r == k.2)).length⟩ : Metric))
      let kept := groups.filter (fun m => decide (p2 ≤ m.OccuredAt) && decide (m.OccuredAt ≤ p3))
      some (orderByCountDesc kept)

/-- Evaluate the totals-mode template: keep rows of the tenant whose
date lies in `[p2, p3]` in the page-view category and satisfying the
extra `where` clause, group by the column, report each group with
`occured_at = 0`, order by count descending.

The clause `AND $4 = $4` compares the fourth bound parameter with
itself.  The clause `AND referrer_domain = $3` compares the `String`
column `referrer_domain` with the third bound parameter, which
`GetStats` binds to the `uint32` value `End`; ClickHouse rejects an
equality between `String` and an integer as ill-typed, so the query
fails, modelled as `none`. -/
def totalsRun (field whereClause p1 : String) (p2 p3 : Nat) (p4 : String)
    (tbl : List Row) : Option (List Metric) :=
  match getCol field with
  | none => none
  | some col =>
      if whereClause = "AND $4 = $4" then
        let rows := tbl.filter (fun r =>
          r.site_id == p1 && decide (p2 ≤ r.occured_at) && decide (r.occured_at ≤ p3) &&
          r.category == "Page views" && p4 == p4)
        let keys := dedup (rows.map col)
        let groups := keys.map (fun k =>
          (⟨0, k, (rows.filter (fun r => col r == k)).length⟩ : Metric))
        some (orderByCountDesc groups)
      else
        none

/-- Result of executing the query produced by `GenQuery data` with the
parameter binding of `GetStats` against table `tbl`. -/
def runQuery (data : MetricData) (tbl : List Row) : Option (List Metric) :=
  let parts := genSwitch data.What
  if parts.2.1 then dailyRun parts.1 data.SiteID data.Start data.End tbl
  else totalsRun parts.1 parts.2.2 data.SiteID data.Start data.End data.Extra tbl

/-! ## TimeToInt (src/utils.go lines 9-16)

```go
func TimeToInt(d time.Time) uint32 {
    now := d.Format("20240102")
    i, err := strconv.ParseInt(now, 10, 32)
    if err != nil { log.Fatal(err) }
    return uint32(i)
}
```

Go `time.Format` interprets its layout string by scanning for the fixed
reference-date chunks of the `time` package.  The layout `"20240102"`
(note: not the reference layout `"20060102"`) decomposes as
`"2"` (day, unpadded) · `"02"` (day, zero-padded) · `"4"` (minute,
unpadded) · `"01"` (month, zero-padded) · `"02"` (day, zero-padded):
`"2024"` is not `"2006"`, so the leading digit 2 is the unpadded-day
chunk, `"02"`/`"01"` are the zero-padded day/month chunks and the
digit 4 is the unpadded-minute chunk.  `strconv.ParseInt(_, 10, 32)` errors when
the value exceeds `2^31 - 1`, upon which the Go code calls `log.Fatal`
(process abort), modelled as `none`. -/

/-- A wall-clock instant, only the fields `Format` reads. -/
structure GoTime where
  year : Nat
  month : Nat
  day : Nat
  hour : Nat
  minute : Nat
  second : Nat
deriving Repr, DecidableEq

/-- Zero-pad a value to two decimal digits (Go padded format chunks). -/
def pad2 (n : Nat) : String :=
  if n < 10 then "0" ++ toString n else toString n

/-- `d.Format("20240102")`: day · padded day · minute · padded month ·
padded day, per the layout decomposition above. -/
def goFormatLayout20240102 (t : GoTime) : String :=
  toString t.day ++ pad2 t.day ++ toString t.minute ++ pad2 t.month ++ pad2 t.day

/-- Decimal value of a digit character. -/
def digitVal? (c : Char) : Option Nat :=
  if '0' ≤ c ∧ c ≤ '9' then some (c.toNat - '0'.toNat) else none

/-- Base-10 value of a digit list (leftmost digit most significant);
`none` on any non-digit character. -/
def parseDecDigits : List Char → Nat → Option Nat
  | [], acc => some acc
  | c :: rest, acc =>
      match digitVal? c with
      | none => none
      | some d => parseDecDigits rest (acc * 10 + d)

/-- `strconv.ParseInt(s, 10, 32)` on the all-digit strings `Format`
produces: the base-10 value when it fits a signed 32-bit integer,
an error (`none`) otherwise or on an empty/non-digit string. -/
def goParseInt10Bit32 (s : String) : Option Nat :=
  match s.data with
  | [] => none
  | cs =>
      match parseDecDigits cs 0 with
      | none => none
      | some v => if v ≤ 2147483647 then some v else none

/-- `TimeToInt` from src/utils.go; `none` is the `log.Fatal` abort when
`ParseInt` errors (value outside the signed 32-bit range). -/
def TimeToInt (t : GoTime) : Option Nat :=
  goParseInt10Bit32 (goFormatLayout20240102 t)

/-- The encoding the specification prescribes for `occurredAt`:
the 8-digit decimal integer YYYYMMDD of the date. -/
def yyyymmdd (t : GoTime) : Nat :=
  t.year * 10000 + t.month * 100 + t.day

/-! ## The ingestion batcher (src/db.go lines 137-299)

The worker loop `Run` owns the buffer `e.q`, receives from the bounded
channel `e.ch` (capacity 100) and reacts to three select cases: a
received event (append; flush when the buffer holds `maxBatchSize`
events), the idle timer, and context cancellation (close the channel,
drain it into the buffer, final flush, return — the deferred `wg.Done`
then releases `WaitFlush`).  We model the worker as explicit state
passed through the branch bodies, which in the source run sequentially
inside the single worker goroutine.  Events are `qdata` values; their
payload is irrelevant to the batching claims, so `qdata` is modelled as
an abstract tag. -/

/-- `maxBatchSize` constant of `Run` (src/db.go line 163). -/
def maxBatchSize : Nat := 50

/-- Channel capacity of `e.ch` (src/db.go line 161). -/
def chanCapacity : Nat := 100

/-- An enqueued event (`qdata` in the source); the batcher never
inspects its payload, so a tag suffices. -/
structure Qdata where
  tag : Nat
deriving Repr, DecidableEq

/-- Worker-visible state of an `Events` value: the buffer `q`, the
channel contents and closed flag, the batches passed to `Insert` so
far, and whether `Run` has returned (the `WaitGroup` counter). -/
structure EventsState where
  q : List Qdata
  ch : List Qdata
  chClosed : Bool
  flushes : List (List Qdata)
  returned : Bool
deriving Repr, DecidableEq

/-- The state `Run` starts from: empty buffer, fresh open channel. -/
def initialState : EventsState :=
  { q := [], ch := [], chClosed := false, flushes := [], returned := false }

/-- `flushQueue` (src/db.go lines 218-237): empty buffer is a no-op
early return; otherwise copy-and-clear the buffer and hand the copy to
`Insert` as one batch. -/
def flushQueue (s : EventsState) : EventsState :=
  if s.q = [] then s
  else { s with q := [], flushes := s.flushes ++ [s.q] }

/-- The first select branch of `Run` (src/db.go lines 170-192),
receiving one event: append it to the buffer and flush immediately when
the buffer size has reached `maxBatchSize`.  (The branch also resets
the idle timer; the timer is modelled by `timerStep` firing as a
separate step, so the reset needs no state here.) -/
def recvStep (s : EventsState) (d : Qdata) : EventsState :=
  let s1 := { s with q := s.q ++ [d] }
  if maxBatchSize ≤ s1.q.length then flushQueue s1 else s1

/-- The timer select branch of `Run` (src/db.go lines 194-197). -/
def timerStep (s : EventsState) : EventsState :=
  flushQueue s

/-- The `ctx.Done()` select branch of `Run` (src/db.go lines 199-211):
close the channel, drain everything still queued in it into the buffer,
perform the final flush, and return. -/
def ctxDoneStep (s : EventsState) : EventsState :=
  let s1 := { s with chClosed := true }
  let s2 := { s1 with q := s1.q ++ s1.ch, ch := [] }
  let s3 := flushQueue s2
  { s3 with returned := true }

/-- Deliver a list of events to the worker one at a time (each `Add`
hands its event to the `recvStep` branch). -/
def recvMany (s : EventsState) (ds : List Qdata) : EventsState :=
  ds.foldl recvStep s

/-- `WaitFlush` (src/db.go lines 295-299) blocks on the `WaitGroup`
until `Run` has returned; it can only be past its `wg.Wait()` in states
where `returned` holds. -/
def waitFlushUnblocked (s : EventsState) : Bool :=
  s.returned

/-- Outcome of one `Add` call (src/db.go lines 137-154). -/
inductive AddResult where
  | ok
  | errCtx
  | panicked
deriving Repr, DecidableEq

/-- The possible outcomes of the `select` in `Add`, given the channel
state and whether the caller context is done.  Per the Go
specification, a send on a closed channel is always ready and panics
when chosen; a send on an open channel is ready when buffer space is
free and succeeds; `<-ctx.Done()` is ready when the context is done and
makes `Add` return `ctx.Err()`.  When several cases are ready the
runtime picks one of them; when none is, the call blocks (empty
list of immediate outcomes). -/
def addOutcomes (chClosed : Bool) (chLen : Nat) (ctxDone : Bool) : List AddResult :=
  (if chClosed then [AddResult.panicked]
   else if chLen < chanCapacity then [AddResult.ok]
   else []) ++
  (if ctxDone then [AddResult.errCtx] else [])

/-! ## Helper lemmas on the batcher -/

/-- While the buffer plus the incoming events stay strictly below the
batch threshold, delivering the events only appends them to the buffer:
no flush happens. -/
theorem recvMany_below_threshold : ∀ (ds : List Qdata) (s : EventsState),
    s.q.length + ds.length < maxBatchSize →
    recvMany s ds = { s with q := s.q ++ ds }
  | [], s, _ => by simp [recvMany]
  | d :: rest, s, h => by
      have h1 : ({ s with q := s.q ++ [d] } : EventsState).q.length + rest.length
          < maxBatchSize := by
        simp only [List.length_append, List.length_cons, List.length_nil] at h ⊢
        omega
      have h2 : ¬ maxBatchSize ≤ s.q.length + 1 := by
        simp only [List.length_cons] at h
        omega
      calc recvMany s (d :: rest)
          = recvMany (recvStep s d) rest := rfl
        _ = recvMany { s with q := s.q ++ [d] } rest := by
              simp [recvStep, h2]
        _ = { s with q := (s.q ++ [d]) ++ rest } :=
              recvMany_below_threshold rest { s with q := s.q ++ [d] } h1
        _ = { s with q := s.q ++ (d :: rest) } := by
              simp

/-- When the buffer plus the incoming events hit the batch threshold
exactly, delivering the events ends with one immediate flush carrying
the whole buffer, leaving the buffer empty. -/
theorem recvMany_reaches_threshold : ∀ (ds : List Qdata) (s : EventsState),
    ds ≠ [] →
    s.q.length + ds.length = maxBatchSize →
    recvMany s ds = { s with q := [], flushes := s.flushes ++ [s.q ++ ds] }
  | [], _, hne, _ => absurd rfl hne
  | d :: rest, s, _, h => by
      cases rest with
      | nil =>
          have hle : maxBatchSize ≤ s.q.length + 1 := by
            simp only [List.length_cons, List.length_nil] at h
            omega
          have hne2 : s.q ++ [d] ≠ [] := by simp
          calc recvMany s [d]
              = recvMany (recvStep s d) [] := rfl
            _ = recvStep s d := rfl
            _ = { s with q := [], flushes := s.flushes ++ [s.q ++ [d]] } := by
                  simp [recvStep, flushQueue, hle, hne2]
      | cons e rest2 =>
          have h2 : ¬ maxBatchSize ≤ s.q.length + 1 := by
            simp only [List.length_cons] at h
            omega
          have h3 : ({ s with q := s.q ++ [d] } : EventsState).q.length
              + (e :: rest2).length = maxBatchSize := by
            simp only [List.length_append, List.length_cons, List.length_nil] at h ⊢
            omega
          calc recvMany s (d :: e :: rest2)
              = recvMany (recvStep s d) (e :: rest2) := rfl
            _ = recvMany { s with q := s.q ++ [d] } (e :: rest2) := by
                  simp [recvStep, h2]
            _ = { s with q := [], flushes := s.flushes ++ [(s.q ++ [d]) ++ (e :: rest2)] } :=
                  recvMany_reaches_threshold (e :: rest2) _ (by simp) h3
            _ = { s with q := [], flushes := s.flushes ++ [s.q ++ (d :: e :: rest2)] } := by
                  simp

/-- Changing the fourth bound parameter never changes the result of a
totals-mode query: the tautological clause compares the parameter with
itself, and the referrer clause (an ill-typed comparison) fails for
every parameter value. -/
theorem totalsRun_p4_irrelevant (f w p1 : String) (p2 p3 : Nat) (x y : String)
    (tbl : List Row) :
    totalsRun f w p1 p2 p3 x tbl = totalsRun f w p1 p2 p3 y tbl := by
  unfold totalsRun
  cases getCol f with
  | none => rfl
  | some col =>
      by_cases hw : w = "AND $4 = $4"
      · simp [hw]
      · simp [hw]

/-! ## Claim theorems -/

/-- Claim C1.  The claim asserts that the Referrer query restricts
results to rows whose referrer-host column equals the request extra
parameter (the fourth bound positional parameter).  In the code, the
Referrer query text contains no `$4` placeholder at all; its extra
clause compares `referrer_domain` with `$3`, which `GetStats` binds to
the `End` date parameter, so the query never consults `Extra` and
(being an ill-typed comparison of a string column with an integer)
fails rather than returning the rows whose referrer host equals
`Extra`. -/
theorem C1_referrer_query_compares_end_not_extra :
    GenQuery ⟨QueryReferrer, "site1", 20240101, 20240131, "news.ycombinator.com"⟩ =
      totalsTemplate "referrer" "AND referrer_domain = $3 " ∧
    occurrences (totalsTemplate "referrer" "AND referrer_domain = $3 ") "$4" = 0 ∧
    occurrences (totalsTemplate "referrer" "AND referrer_domain = $3 ") "referrer_domain = $3" = 1 ∧
    getStatsParams ⟨QueryReferrer, "site1", 20240101, 20240131, "news.ycombinator.com"⟩ =
      [SqlParam.s "site1", SqlParam.n 20240101, SqlParam.n 20240131,
       SqlParam.s "news.ycombinator.com"] ∧
    runQuery ⟨QueryReferrer, "site1", 20240101, 20240131, "news.ycombinator.com"⟩
      [⟨"site1", 20240115, "Page views", "/post", "u1",
        "https://news.ycombinator.com/item?id=1", "news.ycombinator.com",
        "Firefox", "Linux", "DE"⟩] = none :=
  ⟨rfl, by decide, by decide, rfl, by decide⟩

/-- Claim C2.  The claim asserts that a metric request whose kind is
outside the eight enumerated ones is rejected with an InvalidArgument
error before any query text is constructed.  In the code there is no
such rejection: the `switch` in `GenQuery` has no default clause, so an
unrecognized kind keeps the empty grouping column and the daily
template is rendered with an empty field; `GetStats` builds the query
text and executes it unconditionally (the query is malformed: its
grouping column is empty, so it selects no valid column and fails at
the store). -/
theorem C2_unrecognized_kind_emits_malformed_query :
    ∀ (s : String) (a b : Nat) (x : String) (tbl : List Row),
    (genSwitch 8).1 = "" ∧
    GenQuery ⟨8, s, a, b, x⟩ = dailyTemplate "" ∧
    GetStatsCall ⟨8, s, a, b, x⟩ =
      (dailyTemplate "", [SqlParam.s s, SqlParam.n a, SqlParam.n b, SqlParam.s x]) ∧
    occurrences (dailyTemplate "") "SELECT occured_at, , COUNT(*)" = 1 ∧
    occurrences (dailyTemplate "") "GROUP BY occured_at, \n" = 1 ∧
    runQuery ⟨8, s, a, b, x⟩ tbl = none := by
  intro s a b x tbl
  exact ⟨rfl, rfl, rfl, by decide, by decide, rfl⟩

/-- Claim C3.  The claim asserts that after shutdown has been signaled
every `Add` call fails with a Cancelled error, never succeeds and never
crashes.  In the code, `Add` only selects between sending on the
channel and the caller context: once the `ctx.Done` branch of `Run` has
closed the channel, an `Add` whose caller context is not done has the
send as its only ready case, and a send on a closed channel panics; and
while the channel is still open (before the worker processes the
cancellation) an `Add` still succeeds.  Moreover even with the caller
context already done, `ok` remains a possible outcome while the channel
has free space. -/
theorem C3_add_after_shutdown_can_crash :
    ∀ (s : EventsState) (n : Nat),
    (ctxDoneStep s).chClosed = true ∧
    addOutcomes true n false = [AddResult.panicked] ∧
    addOutcomes false 0 false = [AddResult.ok] ∧
    addOutcomes false 0 true = [AddResult.ok, AddResult.errCtx] := by
  intro s n
  refine ⟨?_, rfl, rfl, rfl⟩
  simp only [ctxDoneStep, flushQueue]
  split <;> rfl

/-- Claim C4.  The claim asserts that `TimeToInt t` is the YYYYMMDD
encoding of the date of `t`.  The code formats with the Go layout
string `"20240102"`, which is not the reference layout `"20060102"`:
it decomposes into day, zero-padded day, minute, zero-padded month and
zero-padded day chunks.  At 2024-01-02 00:00:00 UTC the code yields
20200102 while YYYYMMDD is 20240102; at 2024-12-25 23:59:00 the
formatted number 2525591225 overflows the signed 32-bit `ParseInt`
bound and the code aborts via `log.Fatal`. -/
theorem C4_timeToInt_is_not_yyyymmdd :
    TimeToInt ⟨2024, 1, 2, 0, 0, 0⟩ = some 20200102 ∧
    yyyymmdd ⟨2024, 1, 2, 0, 0, 0⟩ = 20240102 ∧
    TimeToInt ⟨2024, 1, 2, 0, 0, 0⟩ ≠ some (yyyymmdd ⟨2024, 1, 2, 0, 0, 0⟩) ∧
    TimeToInt ⟨2024, 12, 25, 23, 59, 0⟩ = none :=
  ⟨by decide, by decide, by decide, by decide⟩

/-- Claim C5.  For each of the eight metric kinds, `GenQuery` renders
exactly the template of the dispatch table: grouping column `event`
(daily), `event` (totals), `user_id` (daily), `referrer_domain`
(totals), `referrer` (totals), `browser_name` (totals), `os_name`
(totals), `country` (totals) — where `user_id` is the store column for
the identity field and `referrer_domain` for the referrer host.  The
occurrence counts pin the exact GROUP BY clause of each rendered
template. -/
theorem C5_dispatch_table_matches :
    ∀ (s : String) (a b : Nat) (x : String),
    (GenQuery ⟨QueryPageViews, s, a, b, x⟩ = dailyTemplate "event" ∧
     occurrences (dailyTemplate "event") "GROUP BY occured_at, event\n" = 1) ∧
    (GenQuery ⟨QueryPageViewList, s, a, b, x⟩ = totalsTemplate "event" "AND $4 = $4" ∧
     occurrences (totalsTemplate "event" "AND $4 = $4") "GROUP BY event\n" = 1) ∧
    (GenQuery ⟨QueryUniqueVisitors, s, a, b, x⟩ = dailyTemplate "user_id" ∧
     occurrences (dailyTemplate "user_id") "GROUP BY occured_at, user_id\n" = 1) ∧
    (GenQuery ⟨QueryReferrerHost, s, a, b, x⟩ = totalsTemplate "referrer_domain" "AND $4 = $4" ∧
     occurrences (totalsTemplate "referrer_domain" "AND $4 = $4") "GROUP BY referrer_domain\n" = 1) ∧
    (GenQuery ⟨QueryReferrer, s, a, b, x⟩ = totalsTemplate "referrer" "AND referrer_domain = $3 " ∧
     occurrences (totalsTemplate "referrer" "AND referrer_domain = $3 ") "GROUP BY referrer\n" = 1) ∧
    (GenQuery ⟨QueryBrowsers, s, a, b, x⟩ = totalsTemplate "browser_name" "AND $4 = $4" ∧
     occurrences (totalsTemplate "browser_name" "AND $4 = $4") "GROUP BY browser_name\n" = 1) ∧
    (GenQuery ⟨QueryOSes, s, a, b, x⟩ = totalsTemplate "os_name" "AND $4 = $4" ∧
     occurrences (totalsTemplate "os_name" "AND $4 = $4") "GROUP BY os_name\n" = 1) ∧
    (GenQuery ⟨QueryCountry, s, a, b, x⟩ = totalsTemplate "country" "AND $4 = $4" ∧
     occurrences (totalsTemplate "country" "AND $4 = $4") "GROUP BY country\n" = 1) := by
  intro s a b x
  exact ⟨⟨rfl, by decide⟩, ⟨rfl, by decide⟩, ⟨rfl, by decide⟩, ⟨rfl, by decide⟩,
         ⟨rfl, by decide⟩, ⟨rfl, by decide⟩, ⟨rfl, by decide⟩, ⟨rfl, by decide⟩⟩

/-- Claim C6.  The `ctx.Done` branch of `Run` closes the channel (no
more input is accepted), drains every event still in the input queue
into the buffer, performs one final flush whose batch is exactly the
buffered events followed by the drained events — each appearing exactly
once, none lost — and returns, which releases `WaitFlush`.  A final
flush of an empty buffer is the usual no-op. -/
theorem C6_shutdown_drains_flushes_once_and_stops :
    ∀ s : EventsState,
    (ctxDoneStep s).chClosed = true ∧
    (ctxDoneStep s).ch = [] ∧
    (ctxDoneStep s).q = [] ∧
    (ctxDoneStep s).returned = true ∧
    waitFlushUnblocked (ctxDoneStep s) = true ∧
    (ctxDoneStep s).flushes =
      s.flushes ++ (if s.q ++ s.ch = [] then [] else [s.q ++ s.ch]) := by
  intro s
  by_cases h : s.q ++ s.ch = [] <;>
    simp [ctxDoneStep, flushQueue, waitFlushUnblocked, h]

/-- Claim C7.  Starting from an empty buffer, delivering N events to
the worker performs zero flushes while N is below `maxBatchSize` (the
events just accumulate in the buffer), and at N = `maxBatchSize`
performs exactly one immediate flush whose batch is the full list of
the 50 events, leaving the buffer empty. -/
theorem C7_size_trigger_flushes_exactly_at_threshold :
    ∀ ds : List Qdata,
    (ds.length < maxBatchSize →
      recvMany initialState ds =
        { q := ds, ch := [], chClosed := false, flushes := [], returned := false }) ∧
    (ds.length = maxBatchSize →
      recvMany initialState ds =
        { q := [], ch := [], chClosed := false, flushes := [ds], returned := false }) := by
  intro ds
  constructor
  · intro h
    have := recvMany_below_threshold ds initialState (by simpa [initialState] using h)
    simpa [initialState] using this
  · intro h
    have hne : ds ≠ [] := by
      intro hd
      rw [hd] at h
      simp [maxBatchSize] at h
    have := recvMany_reaches_threshold ds initialState hne (by simpa [initialState] using h)
    simpa [initialState] using this

/-- Witness for C7 at concrete inputs: 49 events cause no flush, 50
events cause exactly the one full flush. -/
theorem C7_witness :
    (recvMany initialState ((List.range 49).map Qdata.mk)).flushes = [] ∧
    recvMany initialState ((List.range 50).map Qdata.mk) =
      { q := [], ch := [], chClosed := false,
        flushes := [(List.range 50).map Qdata.mk], returned := false } := by
  constructor
  · rw [(C7_size_trigger_flushes_exactly_at_threshold ((List.range 49).map Qdata.mk)).1
      (by decide)]
  · exact (C7_size_trigger_flushes_exactly_at_threshold ((List.range 50).map Qdata.mk)).2
      (by decide)

/-- Claim C8.  For the two daily-mode kinds the rendered query groups
by `(occured_at, column)`, places the date-range comparison in a
`HAVING` clause after the `GROUP BY` (the section before `GROUP BY`
mentions neither `BETWEEN` nor the `$2`/`$3` bounds nor `HAVING`), and
orders by the count column descending. -/
theorem C8_daily_date_filter_is_post_aggregation :
    ∀ (s : String) (a b : Nat) (x : String),
    GenQuery ⟨QueryPageViews, s, a, b, x⟩ = dailyTemplate "event" ∧
    GenQuery ⟨QueryUniqueVisitors, s, a, b, x⟩ = dailyTemplate "user_id" ∧
    (occurrences (dailyTemplate "event") "GROUP BY occured_at, event\n" = 1 ∧
     occurrences (dailyTemplate "event") "HAVING occured_at BETWEEN $2 AND $3" = 1 ∧
     occurrences (dailyTemplate "event") "ORDER BY 3 DESC" = 1 ∧
     occurrences (beforeGroupBy (dailyTemplate "event")) "BETWEEN" = 0 ∧
     occurrences (beforeGroupBy (dailyTemplate "event")) "$2" = 0 ∧
     occurrences (beforeGroupBy (dailyTemplate "event")) "$3" = 0 ∧
     occurrences (beforeGroupBy (dailyTemplate "event")) "HAVING" = 0) ∧
    (occurrences (dailyTemplate "user_id") "GROUP BY occured_at, user_id\n" = 1 ∧
     occurrences (dailyTemplate "user_id") "HAVING occured_at BETWEEN $2 AND $3" = 1 ∧
     occurrences (dailyTemplate "user_id") "ORDER BY 3 DESC" = 1 ∧
     occurrences (beforeGroupBy (dailyTemplate "user_id")) "BETWEEN" = 0 ∧
     occurrences (beforeGroupBy (dailyTemplate "user_id")) "$2" = 0 ∧
     occurrences (beforeGroupBy (dailyTemplate "user_id")) "$3" = 0 ∧
     occurrences (beforeGroupBy (dailyTemplate "user_id")) "HAVING" = 0) := by
  intro s a b x
  exact ⟨rfl, rfl, by decide, by decide⟩

/-- Claim C9.  The query text is a function of the metric kind alone:
two requests with the same kind produce identical query strings, and
the four client-controlled values reach the store only as the
positional parameter list bound by `GetStats`, never inside the query
text. -/
theorem C9_query_text_depends_only_on_kind :
    ∀ d1 d2 : MetricData, d1.What = d2.What →
    GenQuery d1 = GenQuery d2 ∧
    GetStatsCall d1 =
      (GenQuery d1,
       [SqlParam.s d1.SiteID, SqlParam.n d1.Start, SqlParam.n d1.End, SqlParam.s d1.Extra]) := by
  intro d1 d2 h
  constructor
  · unfold GenQuery
    rw [h]
  · rfl

/-- Witness for C9: two PageViews requests differing in site, range and
extra (one with a hostile site string) generate the same query text. -/
theorem C9_witness :
    GenQuery ⟨QueryPageViews, "alice.example", 20240101, 20240131, "e1"⟩ =
      GenQuery ⟨QueryPageViews, "x OR 1=1", 0, 99999999, "e2"⟩ :=
  (C9_query_text_depends_only_on_kind
    ⟨QueryPageViews, "alice.example", 20240101, 20240131, "e1"⟩
    ⟨QueryPageViews, "x OR 1=1", 0, 99999999, "e2"⟩ rfl).1

/-- Claim C10.  Query results never depend on the `Extra` parameter:
for every kind, changing `Extra` leaves the result unchanged.  The two
daily templates and the Referrer template contain no `$4` placeholder
at all, and every other totals template contains `$4` exactly twice,
both inside the one occurrence of the tautological clause
`AND $4 = $4`. -/
theorem C10_results_independent_of_extra :
    (∀ (d : MetricData) (x : String) (tbl : List Row),
        runQuery { d with Extra := x } tbl = runQuery d tbl) ∧
    occurrences (dailyTemplate "event") "$4" = 0 ∧
    occurrences (dailyTemplate "user_id") "$4" = 0 ∧
    occurrences (totalsTemplate "referrer" "AND referrer_domain = $3 ") "$4" = 0 ∧
    (occurrences (totalsTemplate "event" "AND $4 = $4") "$4" = 2 ∧
     occurrences (totalsTemplate "event" "AND $4 = $4") "AND $4 = $4" = 1) ∧
    (occurrences (totalsTemplate "referrer_domain" "AND $4 = $4") "$4" = 2 ∧
     occurrences (totalsTemplate "referrer_domain" "AND $4 = $4") "AND $4 = $4" = 1) ∧
    (occurrences (totalsTemplate "browser_name" "AND $4 = $4") "$4" = 2 ∧
     occurrences (totalsTemplate "browser_name" "AND $4 = $4") "AND $4 = $4" = 1) ∧
    (occurrences (totalsTemplate "os_name" "AND $4 = $4") "$4" = 2 ∧
     occurrences (totalsTemplate "os_name" "AND $4 = $4") "AND $4 = $4" = 1) ∧
    (occurrences (totalsTemplate "country" "AND $4 = $4") "$4" = 2 ∧
     occurrences (totalsTemplate "country" "AND $4 = $4") "AND $4 = $4" = 1) := by
  refine ⟨?_, by decide, by decide, by decide, ⟨by decide, by decide⟩,
    ⟨by decide, by decide⟩, ⟨by decide, by decide⟩, ⟨by decide, by decide⟩,
    ⟨by decide, by decide⟩⟩
  intro d x tbl
  unfold runQuery
  by_cases h : (genSwitch d.What).2.1
  · simp [h]
  · simp only [h, if_false]
    exact totalsRun_p4_irrelevant _ _ _ _ _ x d.Extra tbl

end Tracker
